import Mathlib

/-!
Verification of the endpoint-link RPC protocol engine.

This file shallowly embeds the protocol engine of the repository
(src/expose.ts, src/wrap.ts, src/unnamed/part_019 wrap variant,
src/unnamed/part_021 waitForReady variants, src/gen_id.ts, src/utils.ts)
and settles the spec claims against the embedded definitions.

Conventions of the embedding:
- JavaScript runtime values that flow through the engine (thrown values,
  results, arguments) are modelled by the inductive type JSVal, with
  explicit truthiness and string-coercion functions mirroring JS coercion.
- Incoming messages are RawMsg records with Option fields, so that a
  missing field (JS undefined) is distinguishable from a present falsy
  field (such as an empty string).
- The single-threaded event loop is modelled by atomic step functions on
  explicit state records; an interleaving is a list of events fed to the
  step functions in order.
- Posting to the endpoint is modelled by returning the list of frames the
  step posts; promise settlement is modelled by returning the list of
  settlement actions the step performs.
-/

namespace EndpointLink

/-! ## JavaScript value universe -/

/-- A model of the JavaScript values that flow through the engine. -/
inductive JSVal where
  | undef
  | null
  | bool (b : Bool)
  | num (n : Int)
  | str (s : String)
  | arr (xs : List JSVal)
  | obj
  | errObj (msg : String)
deriving Repr

/-- JS truthiness: undefined, null, false, 0 and the empty string are falsy;
objects, arrays and Error objects are always truthy. -/
def jsTruthy : JSVal → Bool
  | .undef => false
  | .null => false
  | .bool b => b
  | .num n => n != 0
  | .str s => s ≠ ""
  | .arr _ => true
  | .obj => true
  | .errObj _ => true

mutual

/-- JS String(v) coercion, restricted to the values modelled here.
On arrays it is the comma-join of the element strings (Array.prototype.join),
so String of the empty array is the empty string. -/
def jsToString : JSVal → String
  | .undef => "undefined"
  | .null => "null"
  | .bool b => if b then "true" else "false"
  | .num n => toString n
  | .str s => s
  | .arr xs => String.intercalate "," (jsToStringElems xs)
  | .obj => "[object Object]"
  | .errObj m => if m = "" then "Error" else "Error: " ++ m

/-- Element strings for Array.prototype.join: null and undefined elements
render as the empty string. -/
def jsToStringElems : List JSVal → List String
  | [] => []
  | .undef :: vs => "" :: jsToStringElems vs
  | .null :: vs => "" :: jsToStringElems vs
  | v :: vs => jsToString v :: jsToStringElems vs

end

/-! ## Protocol messages -/

/-- An incoming message as the listeners see it: every field is optional
because a malformed frame may miss any of them.  kind none models a payload
without a kind discriminator.  The error field is a string option so that a
present-but-empty error (falsy in JS) is distinguishable from an absent
one. -/
structure RawMsg where
  kind : Option String := none
  id : Option String := none
  idRef : Option String := none
  name : Option String := none
  args : Option (List JSVal) := none
  result : Option JSVal := none
  error : Option String := none
deriving Repr

/-- Truthiness of an optional string field: absent (undefined) and the empty
string are falsy. -/
def optStrTruthy : Option String → Bool
  | none => false
  | some s => s ≠ ""

/-- A frame posted to the endpoint by either engine. -/
inductive OutFrame where
  | result (id : Option String) (res : Option JSVal) (error : Option String)
  | cancel (id : Option String) (idRef : Option String)
  | call (id : String) (name : String) (args : List JSVal)
  | ready
deriving Repr

/-- Whether a posted frame is a CallFrame. -/
def OutFrame.isCall : OutFrame → Bool
  | .call _ _ _ => true
  | _ => false

/-- Reinterpret a posted frame as an incoming raw message, as the peer
endpoint would receive it. -/
def outToRaw : OutFrame → RawMsg
  | .result i r e => { kind := some "result", id := i, result := r, error := e }
  | .cancel i ref => { kind := some "cancel", id := i, idRef := ref }
  | .call i n a => { kind := some "call", id := some i, name := some n, args := some a }
  | .ready => { kind := some "ready" }

/-! ## Association-map helpers (JS Map with Option String keys) -/

/-- Lookup in a JS Map modelled as an association list; a key of none models
the undefined key, which a JS Map accepts. -/
def mapGet (m : List (Option String × Nat)) (k : Option String) : Option Nat :=
  (m.find? fun p => p.1 = k).map (·.2)

/-- Map.set: replace any existing binding of the key. -/
def mapSet (m : List (Option String × Nat)) (k : Option String) (v : Nat) :
    List (Option String × Nat) :=
  (m.filter fun p => p.1 ≠ k) ++ [(k, v)]

/-- Map.delete. -/
def mapDelete (m : List (Option String × Nat)) (k : Option String) :
    List (Option String × Nat) :=
  m.filter fun p => p.1 ≠ k

/-- Map.has. -/
def mapHas (m : List (Option String × Nat)) (k : Option String) : Bool :=
  (mapGet m k).isSome

/-! ## Exposer engine (src/expose.ts)

The exposer keeps a Map from call-id to AbortController.  Controllers are
modelled as indices into a store of aborted flags: the flag outlives the
removal of the map entry because the handler continuation captures the
controller lexically. -/

/-- Exposer-side state: the in-flight invocation map plus the store of
controller aborted flags. -/
structure ExposeState where
  controllerMap : List (Option String × Nat) := []
  controllers : List Bool := []
deriving Repr, DecidableEq

/-- A started handler invocation: the synchronous part of the call branch
invoked a handler and suspended awaiting it. -/
structure Invocation where
  id : Option String
  ctrl : Nat
  hname : String
  args : List JSVal
deriving Repr

/-- JS property access coerces an undefined key to the string "undefined";
the template literal in the no-handler message renders it the same way. -/
def jsKeyOfName : Option String → String
  | some s => s
  | none => "undefined"

/-- The call id the cancel branch resolves: idRef ?? id, with JS nullish
coalescing, which keeps a present-but-empty idRef instead of falling back
to the legacy id field. -/
def nullishIdRef (m : RawMsg) : Option String :=
  match m.idRef with
  | some s => some s
  | none => m.id

/-- The synchronous part of the message listener installed by expose
(src/expose.ts lines 28-79): dispatch on kind; for call frames look up the
handler, answer missing handlers immediately, otherwise create a controller,
record it and start the invocation; for cancel frames resolve the referenced
id with idRef ?? id (nullish coalescing), guard on its truthiness, and abort
and remove a matching record; everything else is ignored.
handlers is the set of names bound in the handler map. -/
def exposeStep (handlers : List String) (st : ExposeState) (data : Option RawMsg) :
    ExposeState × List OutFrame × Option Invocation :=
  match data with
  | none => (st, [], none)
  | some m =>
    if m.kind = some "call" then
      let key := jsKeyOfName m.name
      if handlers.contains key then
        let idx := st.controllers.length
        ({ controllerMap := mapSet st.controllerMap m.id idx
         , controllers := st.controllers ++ [false] }, [],
         some ⟨m.id, idx, key, m.args.getD []⟩)
      else
        (st, [.result m.id none (some ("no handler: " ++ key))], none)
    else if m.kind = some "cancel" then
      if optStrTruthy (nullishIdRef m) then
        match mapGet st.controllerMap (nullishIdRef m) with
        | some idx =>
            ({ controllerMap := mapDelete st.controllerMap (nullishIdRef m)
             , controllers := st.controllers.set idx true }, [], none)
        | none => (st, [], none)
      else (st, [], none)
    else (st, [], none)

/-- The awaited-handler continuation of expose (src/expose.ts lines 45-66):
on success post a result frame carrying the value; on failure post error
"aborted" when the captured controller signal is aborted, otherwise post
String(e || "unknown"); in all cases delete the invocation record. -/
def exposeSettle (st : ExposeState) (inv : Invocation) (outcome : Except JSVal JSVal) :
    ExposeState × OutFrame :=
  let aborted := (st.controllers.get? inv.ctrl).getD false
  let frame :=
    match outcome with
    | .ok v => OutFrame.result inv.id (some v) none
    | .error e =>
      if aborted then OutFrame.result inv.id none (some "aborted")
      else OutFrame.result inv.id none
        (some (jsToString (if jsTruthy e then e else .str "unknown")))
  ({ st with controllerMap := mapDelete st.controllerMap inv.id }, frame)

/-- Modelled from the spec (section 4.4 per-frame behavior for CancelFrame
and section 4.4 failure case): the spec-side resolution of the call id
referenced by a cancel frame, falling back to the legacy id field whenever
idRef is absent or falsy.  This follows the spec words, for comparison with
the code definition exposeStep; the code uses nullish coalescing instead. -/
def specCancelResolveId (m : RawMsg) : Option String :=
  if optStrTruthy m.idRef then m.idRef else m.id

/-- Modelled from the spec (section 4.4 failure case): the spec formula
String(thrownValue) || "unknown" for the error string posted on a
non-aborted handler failure, for comparison with the code formula
String(e || "unknown") embedded in exposeSettle. -/
def specErrorString (e : JSVal) : String :=
  if jsToString e = "" then "unknown" else jsToString e

/-! ## Caller engine (src/wrap.ts)

The caller keeps a Map from call-id to a resolve/reject pair.  The
continuations are abstracted to the list of ids with a pending entry; a
settlement performed on the promise of a call is recorded as a
(call-id, Settle) pair returned by the step that performs it. -/

/-- A settlement performed on the promise of one call. -/
inductive Settle where
  | resolved (v : Option JSVal)
  | rejected (msg : String)
deriving Repr

/-- Caller-side state of the wrap.ts engine: whether the endpoint message
listener is still attached and the ids with a pending replies entry. -/
structure WrapState where
  listenerAttached : Bool := true
  replies : List String := []
deriving Repr, DecidableEq

/-- The result listener installed by wrap (src/wrap.ts lines 35-48): on a
result frame look up the pending entry by id; if absent, return; if the
error field is truthy reject with an Error carrying it, otherwise resolve
with the result field; then delete the entry.  A detached listener receives
nothing. -/
def wrapOnMessage (st : WrapState) (data : Option RawMsg) :
    WrapState × List (String × Settle) :=
  if st.listenerAttached = false then (st, [])
  else
    match data with
    | none => (st, [])
    | some m =>
      if m.kind = some "result" then
        match m.id with
        | some i =>
          if st.replies.contains i then
            ({ st with replies := st.replies.erase i },
             [(i, if optStrTruthy m.error
                  then Settle.rejected (m.error.getD "")
                  else Settle.resolved m.result)])
          else (st, [])
        | none => (st, [])
      else (st, [])

/-- The onAbort closure of wrap (src/wrap.ts lines 74-81): post a
CancelFrame referencing the id unconditionally, then reject and remove the
pending entry only if it is still present.  The abort listener is attached
to the cancellation token, so it fires independently of the endpoint
listener. -/
def wrapOnAbort (st : WrapState) (id : String) :
    WrapState × List OutFrame × List (String × Settle) :=
  let posted := [OutFrame.cancel (some id) (some id)]
  if st.replies.contains id then
    ({ st with replies := st.replies.erase id }, posted,
     [(id, Settle.rejected "aborted")])
  else (st, posted, [])

/-- close of the wrap.ts api (src/wrap.ts lines 128-131): detach the
listener and clear the replies map.  There is no disposed flag, and the
call function never consults one. -/
def wrapClose (_st : WrapState) : WrapState :=
  { listenerAttached := false, replies := [] }

/-- The optional AbortSignal extracted from the trailing argument,
abstracted to its aborted state at check time. -/
inductive SignalArg where
  | noSignal
  | signal (aborted : Bool)
deriving Repr, DecidableEq

/-- The outcome of executing the call function body up to its first
suspension-free completion: resulting state, frames posted, settlements
performed immediately. -/
structure CallExec where
  state : WrapState
  posted : List OutFrame
  settles : List (String × Settle)
deriving Repr

/-- The call function of wrap (src/wrap.ts lines 51-123), for plain
(non-thenable) arguments and a non-throwing endpoint post: register the
pending entry, then, if the extracted signal is already aborted, post a
CancelFrame with idRef set to the fresh id, delete the entry and reject
with "aborted", posting no CallFrame; otherwise post the CallFrame.  Note
the body has no disposed check and no throwing path of its own. -/
def wrapCall (st : WrapState) (id : String) (nm : String) (args : List JSVal)
    (sig : SignalArg) : CallExec :=
  let st1 : WrapState := { st with replies := st.replies ++ [id] }
  match sig with
  | .signal true =>
      { state := { st1 with replies := st1.replies.erase id }
      , posted := [.cancel (some id) (some id)]
      , settles := [(id, Settle.rejected "aborted")] }
  | .signal false =>
      { state := st1, posted := [.call id nm args], settles := [] }
  | .noSignal =>
      { state := st1, posted := [.call id nm args], settles := [] }

/-! ## Caller engine variant (src/unnamed/part_019) -/

/-- State of the part_019 wrap variant: it additionally keeps a disposed
flag consulted by the call function. -/
structure VariantState where
  disposed : Bool := false
  listenerAttached : Bool := true
  pendingCalls : List String := []
deriving Repr, DecidableEq

/-- The result listener of the part_019 variant (lines 51-66): same
dispatch as wrap.ts but the entry is deleted before settling. -/
def variantOnMessage (st : VariantState) (data : Option RawMsg) :
    VariantState × List (String × Settle) :=
  if st.listenerAttached = false then (st, [])
  else
    match data with
    | none => (st, [])
    | some m =>
      if m.kind = some "result" then
        match m.id with
        | some i =>
          if st.pendingCalls.contains i then
            ({ st with pendingCalls := st.pendingCalls.erase i },
             [(i, if optStrTruthy m.error
                  then Settle.rejected (m.error.getD "")
                  else Settle.resolved m.result)])
          else (st, [])
        | none => (st, [])
      else (st, [])

/-- Outcome of the part_019 call function body. -/
structure VariantCallExec where
  state : VariantState
  posted : List OutFrame
  settles : List (String × Settle)
deriving Repr

/-- The call function of the part_019 variant (lines 74-173), for a
non-throwing endpoint post: a disposed api throws synchronously; a
thenable argument throws a TypeError synchronously; an already-aborted
signal makes the executor reject with "aborted" and return before any
pending entry is stored or any frame is posted; otherwise the pending
entry is stored and the CallFrame is posted. -/
def variantCall (st : VariantState) (id : String) (nm : String)
    (args : List JSVal) (hasThenableArg : Bool) (sig : SignalArg) :
    Except String VariantCallExec :=
  if st.disposed then .error "API has been disposed"
  else if hasThenableArg then
    .error
      "Promise arguments are not supported. Await promises before passing them as arguments."
  else
    match sig with
    | .signal true =>
        .ok { state := st, posted := [], settles := [(id, Settle.rejected "aborted")] }
    | .signal false =>
        .ok { state := { st with pendingCalls := st.pendingCalls ++ [id] }
            , posted := [.call id nm args], settles := [] }
    | .noSignal =>
        .ok { state := { st with pendingCalls := st.pendingCalls ++ [id] }
            , posted := [.call id nm args], settles := [] }

/-- The dispose function of the part_019 variant (lines 176-181): set the
disposed flag, detach both listeners and clear the pending map. -/
def variantDispose (_st : VariantState) : VariantState :=
  { disposed := true, listenerAttached := false, pendingCalls := [] }

/-! ## Readiness wait (src/unnamed/part_021) -/

/-- An action performed by a waitForReady step, in the order the source
performs them. -/
inductive RAction where
  | clearTimer
  | removeAbort
  | detach
  | resolve
  | reject (msg : String)
deriving Repr, DecidableEq

/-- Whether an action settles the waitForReady promise. -/
def RAction.isSettle : RAction → Bool
  | .resolve => true
  | .reject _ => true
  | _ => false

/-- State of the timeout variant of waitForReady (part_021 lines 32-49). -/
structure ReadyTimeoutState where
  listenerAttached : Bool := true
  timerActive : Bool := true
deriving Repr, DecidableEq

/-- The message listener of the timeout variant: on a ready frame clear the
timeout, detach the subscription and resolve, in that order; everything
else is ignored. -/
def readyTimeoutOnMsg (st : ReadyTimeoutState) (data : Option RawMsg) :
    ReadyTimeoutState × List RAction :=
  if st.listenerAttached = false then (st, [])
  else
    match data with
    | none => (st, [])
    | some m =>
      if m.kind = some "ready" then
        ({ listenerAttached := false, timerActive := false },
         [.clearTimer, .detach, .resolve])
      else (st, [])

/-- The timer callback of the timeout variant: when it fires (only while
the timer is still active), detach the subscription and reject with the
descriptive timeout error. -/
def readyTimeoutOnTimer (timeoutMs : Nat) (st : ReadyTimeoutState) :
    ReadyTimeoutState × List RAction :=
  if st.timerActive then
    ({ listenerAttached := false, timerActive := false },
     [.detach,
      .reject ("Endpoint readiness timeout after " ++ toString timeoutMs ++ "ms")])
  else (st, [])

/-- State of the signal variant of waitForReady (part_021 lines 60-94). -/
structure ReadySignalState where
  listenerAttached : Bool
  abortListenerAttached : Bool
deriving Repr, DecidableEq

/-- Construction of the signal variant: an already-aborted signal rejects
immediately without subscribing; otherwise the message listener is
attached, and the abort listener when a signal is supplied. -/
def readySignalInit (sig : SignalArg) : ReadySignalState × List RAction :=
  match sig with
  | .signal true =>
      ({ listenerAttached := false, abortListenerAttached := false },
       [.reject "aborted"])
  | .signal false =>
      ({ listenerAttached := true, abortListenerAttached := true }, [])
  | .noSignal =>
      ({ listenerAttached := true, abortListenerAttached := false }, [])

/-- The message listener of the signal variant: on a ready frame remove the
abort listener, detach the subscription and resolve, in that order. -/
def readySignalOnMsg (st : ReadySignalState) (data : Option RawMsg) :
    ReadySignalState × List RAction :=
  if st.listenerAttached = false then (st, [])
  else
    match data with
    | none => (st, [])
    | some m =>
      if m.kind = some "ready" then
        ({ listenerAttached := false, abortListenerAttached := false },
         [.removeAbort, .detach, .resolve])
      else (st, [])

/-- The abort handler of the signal variant: registered once, so it fires
only while attached; it detaches the subscription and rejects with
"aborted". -/
def readySignalOnAbort (st : ReadySignalState) :
    ReadySignalState × List RAction :=
  if st.abortListenerAttached then
    ({ listenerAttached := false, abortListenerAttached := false },
     [.detach, .reject "aborted"])
  else (st, [])

/-! ## Identifier generation (src/gen_id.ts and src/utils.ts) -/

/-- Hexadecimal digits of a natural number, most significant first, as
produced by the JS Number.prototype.toString with radix 16. -/
def natToHexDigits (n : Nat) : List Char :=
  if _h : n < 16 then [Nat.digitChar n]
  else natToHexDigits (n / 16) ++ [Nat.digitChar (n % 16)]
decreasing_by
  exact Nat.div_lt_self (by omega) (by omega)

/-- b.toString(16).padStart(2, "0") for one byte. -/
def jsByteHex (b : Nat) : String :=
  let s := String.mk (natToHexDigits b)
  if s.length < 2 then String.mk (List.replicate (2 - s.length) '0') ++ s
  else s

/-- genId of src/gen_id.ts (lines 6-10): hex-encode the 8 bytes delivered
by crypto.getRandomValues and join them.  The call to the random source is
not guarded: when the source throws, the exception propagates to the
caller of genId. -/
def genId_gen_id (randomBytes : Except JSVal (List Nat)) : Except JSVal String :=
  match randomBytes with
  | .error e => .error e
  | .ok bytes => .ok (String.join (bytes.map jsByteHex))

/-- genId of src/utils.ts (lines 48-56): same primary path, but inside a
try/catch whose catch returns Math.random().toString(36).slice(2),
modelled as an opaque fallback string, so no exception ever escapes. -/
def genId_utils (randomBytes : Except JSVal (List Nat)) (fallback : String) :
    String :=
  match randomBytes with
  | .ok bytes => String.join (bytes.map jsByteHex)
  | .error _ => fallback

/-! ## Interleaving runners

The engines run on a single-threaded event loop, so an interleaving of the
relevant callbacks is a sequence of atomic steps.  Each runner feeds a list
of events to the step functions and accumulates the actions performed. -/

/-- The two caller-side events racing for one call id: the matching result
frame being processed by the result listener, and the abort handler of the
cancellation token firing. -/
inductive CallerEvent where
  | resultArrive (err : Option String) (res : Option JSVal)
  | abortFire
deriving Repr

/-- One atomic caller-side step for the call with the given id. -/
def callerStep (id : String) (st : WrapState) :
    CallerEvent → WrapState × List (String × Settle)
  | .resultArrive err res =>
      wrapOnMessage st
        (some { kind := some "result", id := some id, error := err, result := res })
  | .abortFire =>
      let r := wrapOnAbort st id
      (r.1, r.2.2)

/-- Run a sequence of caller-side events, accumulating settlements. -/
def callerRun (id : String) (st : WrapState) :
    List CallerEvent → WrapState × List (String × Settle)
  | [] => (st, [])
  | e :: es =>
      let r1 := callerStep id st e
      let r2 := callerRun id r1.1 es
      (r2.1, r1.2 ++ r2.2)

/-- The events racing inside a waitForReady call: an endpoint message
arriving, the timeout timer firing (timeout variant), the abort signal
firing (signal variant). -/
inductive ReadyEvent where
  | msgArrive (data : Option RawMsg)
  | timerFire
  | abortFire
deriving Repr

/-- One atomic step of the timeout variant of waitForReady; it installs no
abort listener, so an abort event does nothing to it. -/
def readyTimeoutStep (timeoutMs : Nat) (st : ReadyTimeoutState) :
    ReadyEvent → ReadyTimeoutState × List RAction
  | .msgArrive d => readyTimeoutOnMsg st d
  | .timerFire => readyTimeoutOnTimer timeoutMs st
  | .abortFire => (st, [])

/-- Run a sequence of events through the timeout variant. -/
def readyTimeoutRun (timeoutMs : Nat) (st : ReadyTimeoutState) :
    List ReadyEvent → ReadyTimeoutState × List RAction
  | [] => (st, [])
  | e :: es =>
      let r1 := readyTimeoutStep timeoutMs st e
      let r2 := readyTimeoutRun timeoutMs r1.1 es
      (r2.1, r1.2 ++ r2.2)

/-- One atomic step of the signal variant of waitForReady; it sets no
timer, so a timer event does nothing to it. -/
def readySignalStep (st : ReadySignalState) :
    ReadyEvent → ReadySignalState × List RAction
  | .msgArrive d => readySignalOnMsg st d
  | .abortFire => readySignalOnAbort st
  | .timerFire => (st, [])

/-- Run a sequence of events through the signal variant. -/
def readySignalRun (st : ReadySignalState) :
    List ReadyEvent → ReadySignalState × List RAction
  | [] => (st, [])
  | e :: es =>
      let r1 := readySignalStep st e
      let r2 := readySignalRun r1.1 es
      (r2.1, r1.2 ++ r2.2)

/-! ## Shared helper lemmas -/

/-- A cancel frame never makes the exposer post anything or start an
invocation, in any state. -/
theorem exposeStep_cancel_silent (hnd : List String) (est : ExposeState)
    (m : RawMsg) (hk : m.kind = some "cancel") :
    (exposeStep hnd est (some m)).2.1 = [] ∧
      (exposeStep hnd est (some m)).2.2 = none := by
  simp only [exposeStep, hk, reduceCtorEq, Option.some.injEq, String.reduceEq,
    if_false, if_true, reduceIte]
  split
  · split <;> simp
  · simp

/-! ## Claim theorems -/

/-- Claim C1: for every call id created by the caller engine, across every
interleaving of the matching result frame being processed and the abort
handler of the cancellation token firing, the promise settles exactly once,
and whichever of the two events runs second finds the pending entry already
removed from the replies map and performs no settlement.  Both callbacks
are atomic on the single-threaded event loop, so the interleavings are the
two orders of the two events; the result frame may carry any error and
result fields. -/
theorem c1_at_most_one_settlement (id : String) (err : Option String)
    (res : Option JSVal) :
    (callerRun id ⟨true, [id]⟩ [.resultArrive err res, .abortFire]).2.length = 1 ∧
    (callerRun id ⟨true, [id]⟩ [.abortFire, .resultArrive err res]).2.length = 1 ∧
    (callerStep id ⟨true, [id]⟩ (.resultArrive err res)).1.replies = [] ∧
    (callerStep id ⟨true, [id]⟩ .abortFire).1.replies = [] ∧
    (callerStep id (callerStep id ⟨true, [id]⟩ (.resultArrive err res)).1
        .abortFire).2 = [] ∧
    (callerStep id (callerStep id ⟨true, [id]⟩ .abortFire).1
        (.resultArrive err res)).2 = [] := by
  simp [callerRun, callerStep, wrapOnMessage, wrapOnAbort]

/-- Claim C2 counterexample: a handler that throws the empty array (a
truthy value whose JS string conversion is the empty string) makes the
exposer post ResultFrame with error set to the empty string, because the
code computes String(e || "unknown") and not the claimed
String(thrownValue) || "unknown", whose value here would be "unknown"; so
the posted error field can be an empty string. -/
theorem c2_counterexample :
    (exposeSettle ⟨[(some "a", 0)], [false]⟩ ⟨some "a", 0, "f", []⟩
        (.error (JSVal.arr []))).2 = OutFrame.result (some "a") none (some "") ∧
    specErrorString (JSVal.arr []) = "unknown" ∧
    ("" : String) ≠ "unknown" := by
  have hint : String.intercalate "," ([] : List String) = "" := rfl
  refine ⟨?_, ?_, by decide⟩
  · simp [exposeSettle, jsTruthy, jsToString, jsToStringElems, hint]
  · simp [specErrorString, jsToString, jsToStringElems, hint]

/-- Claim C2 (amended): when an awaited handler invocation fails, the
exposer posts ResultFrame with error "aborted" if the per-call controller
signal was triggered, and otherwise with error String(e || "unknown"),
that is, "unknown" exactly when the thrown value is falsy and the plain JS
string conversion of the thrown value when it is truthy, which may itself
be the empty string; in all cases the invocation record is removed. -/
theorem c2_failure_error_string (st : ExposeState) (inv : Invocation)
    (e : JSVal) :
    (exposeSettle st inv (.error e)).2 =
      OutFrame.result inv.id none
        (some (if (st.controllers.get? inv.ctrl).getD false then "aborted"
               else if jsTruthy e then jsToString e else "unknown")) ∧
    (exposeSettle st inv (.error e)).1.controllerMap =
      mapDelete st.controllerMap inv.id := by
  refine ⟨?_, by simp [exposeSettle]⟩
  by_cases h : st.controllers[inv.ctrl]?.getD false = true
  · simp [exposeSettle, h]
  · by_cases ht : jsTruthy e = true
    · simp [exposeSettle, h, ht]
    · simp [exposeSettle, h, ht, jsToString]

/-- Claim C3 counterexample: in the part_019 caller variant, a call with
an already-aborted signal rejects with "aborted" but posts nothing at all;
in particular no CancelFrame referencing the fresh id is posted, contrary
to the claim that the caller engine immediately posts one. -/
theorem c3_counterexample :
    (variantCall ⟨false, true, []⟩ "id0" "f" [] false (.signal true)).toOption.map
        (fun r => r.posted) = some [] ∧
    (variantCall ⟨false, true, []⟩ "id0" "f" [] false (.signal true)).toOption.map
        (fun r => r.settles) = some [("id0", Settle.rejected "aborted")] :=
  ⟨rfl, rfl⟩

/-- Claim C3 (amended): a call whose cancellation token is already
cancelled at call time rejects with "aborted" and never posts a CallFrame,
so the exposer never starts a handler invocation for it; the wrap.ts
engine posts exactly one CancelFrame referencing the fresh id and removes
the pending entry it had just registered, while the part_019 variant
rejects before registering a pending entry and posts nothing. -/
theorem c3_pre_cancelled (st : WrapState) (vst : VariantState)
    (id nm : String) (args : List JSVal) (hnd : List String)
    (est : ExposeState)
    (hfresh : st.replies.contains id = false)
    (hdisp : vst.disposed = false) :
    (wrapCall st id nm args (.signal true)).settles =
      [(id, Settle.rejected "aborted")] ∧
    (wrapCall st id nm args (.signal true)).posted =
      [.cancel (some id) (some id)] ∧
    (wrapCall st id nm args (.signal true)).state.replies = st.replies ∧
    ((wrapCall st id nm args (.signal true)).posted.all fun f => !f.isCall) =
      true ∧
    variantCall vst id nm args false (.signal true) =
      .ok ⟨vst, [], [(id, Settle.rejected "aborted")]⟩ ∧
    (∀ f ∈ (wrapCall st id nm args (.signal true)).posted,
      (exposeStep hnd est (some (outToRaw f))).2.1 = [] ∧
      (exposeStep hnd est (some (outToRaw f))).2.2 = none) := by
  have hmem : id ∉ st.replies := by simpa using hfresh
  refine ⟨rfl, rfl, ?_, rfl, ?_, ?_⟩
  · show (st.replies ++ [id]).erase id = st.replies
    rw [List.erase_append_right _ hmem, List.erase_cons_head, List.append_nil]
  · simp [variantCall, hdisp]
  · intro f hf
    have hfc : f = OutFrame.cancel (some id) (some id) := by
      simpa [wrapCall] using hf
    subst hfc
    exact exposeStep_cancel_silent hnd est _ rfl

/-- Claim C3 witness. -/
theorem c3_pre_cancelled_witness :
    (List.contains ([] : List String) "a" = false) ∧
    ((⟨false, true, []⟩ : VariantState).disposed = false) ∧
    ((wrapCall ⟨true, []⟩ "a" "f" [] (.signal true)).settles =
        [("a", Settle.rejected "aborted")] ∧
      (wrapCall ⟨true, []⟩ "a" "f" [] (.signal true)).posted =
        [.cancel (some "a") (some "a")] ∧
      (wrapCall ⟨true, []⟩ "a" "f" [] (.signal true)).state.replies = [] ∧
      ((wrapCall ⟨true, []⟩ "a" "f" [] (.signal true)).posted.all
          fun f => !f.isCall) = true ∧
      variantCall ⟨false, true, []⟩ "a" "f" [] false (.signal true) =
        .ok ⟨⟨false, true, []⟩, [], [("a", Settle.rejected "aborted")]⟩ ∧
      (∀ f ∈ (wrapCall ⟨true, []⟩ "a" "f" [] (.signal true)).posted,
        (exposeStep [] ⟨[], []⟩ (some (outToRaw f))).2.1 = [] ∧
        (exposeStep [] ⟨[], []⟩ (some (outToRaw f))).2.2 = none)) :=
  ⟨rfl, rfl,
    c3_pre_cancelled ⟨true, []⟩ ⟨false, true, []⟩ "a" "f" [] [] ⟨[], []⟩
      rfl rfl⟩

/-- Claim C4 counterexample: a cancel frame whose idRef is present but the
empty string, with the legacy id field naming a live invocation record, is
silently ignored by the exposer: the record for "x" is neither aborted nor
removed, although the claimed resolution (fall back to the legacy id
whenever idRef is absent or falsy) names "x". -/
theorem c4_counterexample :
    (exposeStep [] ⟨[(some "x", 0)], [false]⟩
        (some { kind := some "cancel", id := some "x", idRef := some "" })).1 =
      ⟨[(some "x", 0)], [false]⟩ ∧
    specCancelResolveId
        { kind := some "cancel", id := some "x", idRef := some "" } =
      some "x" ∧
    mapGet [(some "x", 0)] (some "x") = some 0 :=
  ⟨rfl, rfl, rfl⟩

/-- Claim C4 (amended): the exposer resolves the referenced call id of a
cancel frame as idRef ?? id, falling back to the legacy id field only when
idRef is absent (nullish), not when it is merely falsy; when the resolved
id is truthy and an invocation record exists, its controller is aborted
and the record removed; when the resolved id is falsy or no record exists,
the frame is silently ignored, posting nothing and raising nothing. -/
theorem c4_cancel_resolution (hnd : List String) (est : ExposeState)
    (m : RawMsg) (hk : m.kind = some "cancel") :
    (exposeStep hnd est (some m)).2.1 = [] ∧
    (exposeStep hnd est (some m)).2.2 = none ∧
    (∀ idx,
      optStrTruthy (nullishIdRef m) = true →
      mapGet est.controllerMap (nullishIdRef m) = some idx →
      (exposeStep hnd est (some m)).1 =
        ⟨mapDelete est.controllerMap (nullishIdRef m),
         est.controllers.set idx true⟩) ∧
    (optStrTruthy (nullishIdRef m) = false →
      (exposeStep hnd est (some m)).1 = est) ∧
    (mapGet est.controllerMap (nullishIdRef m) = none →
      (exposeStep hnd est (some m)).1 = est) := by
  refine ⟨(exposeStep_cancel_silent hnd est m hk).1,
    (exposeStep_cancel_silent hnd est m hk).2, ?_, ?_, ?_⟩
  · intro idx ht hg
    simp [exposeStep, hk, ht, hg]
  · intro ht
    simp [exposeStep, hk, ht]
  · intro hg
    by_cases ht : optStrTruthy (nullishIdRef m)
    · simp [exposeStep, hk, ht, hg]
    · simp [exposeStep, hk, ht]

/-- Claim C4 witness. -/
theorem c4_cancel_resolution_witness :
    (({ kind := some "cancel", idRef := some "x" } : RawMsg).kind =
        some "cancel") ∧
    ((exposeStep [] ⟨[(some "x", 0)], [false]⟩
        (some { kind := some "cancel", idRef := some "x" })).2.1 = [] ∧
      (exposeStep [] ⟨[(some "x", 0)], [false]⟩
        (some { kind := some "cancel", idRef := some "x" })).2.2 = none ∧
      (∀ idx,
        optStrTruthy (nullishIdRef { kind := some "cancel", idRef := some "x" }) =
          true →
        mapGet ([(some "x", 0)] : List (Option String × Nat))
            (nullishIdRef { kind := some "cancel", idRef := some "x" }) =
          some idx →
        (exposeStep [] ⟨[(some "x", 0)], [false]⟩
            (some { kind := some "cancel", idRef := some "x" })).1 =
          ⟨mapDelete [(some "x", 0)]
              (nullishIdRef { kind := some "cancel", idRef := some "x" }),
           List.set [false] idx true⟩) ∧
      (optStrTruthy (nullishIdRef { kind := some "cancel", idRef := some "x" }) =
          false →
        (exposeStep [] ⟨[(some "x", 0)], [false]⟩
            (some { kind := some "cancel", idRef := some "x" })).1 =
          ⟨[(some "x", 0)], [false]⟩) ∧
      (mapGet ([(some "x", 0)] : List (Option String × Nat))
          (nullishIdRef { kind := some "cancel", idRef := some "x" }) = none →
        (exposeStep [] ⟨[(some "x", 0)], [false]⟩
            (some { kind := some "cancel", idRef := some "x" })).1 =
          ⟨[(some "x", 0)], [false]⟩)) :=
  ⟨rfl, c4_cancel_resolution [] ⟨[(some "x", 0)], [false]⟩
    { kind := some "cancel", idRef := some "x" } rfl⟩

/-- Claim C5: a call frame whose name is not bound in the handler map makes
the exposer immediately post ResultFrame with error "no handler: " followed
by the name, leave its state (in particular the invocation map) unchanged,
and start no invocation, so no cancellation controller is created. -/
theorem c5_no_handler (hnd : List String) (est : ExposeState) (m : RawMsg)
    (hk : m.kind = some "call")
    (habs : hnd.contains (jsKeyOfName m.name) = false) :
    exposeStep hnd est (some m) =
      (est,
       [OutFrame.result m.id none
          (some ("no handler: " ++ jsKeyOfName m.name))],
       none) := by
  have hmem : jsKeyOfName m.name ∉ hnd := by simpa using habs
  simp [exposeStep, hk, hmem]

/-- Claim C5 witness. -/
theorem c5_no_handler_witness :
    (({ kind := some "call", id := some "x", name := some "g" } : RawMsg).kind =
        some "call") ∧
    (List.contains ([] : List String)
        (jsKeyOfName (some "g")) = false) ∧
    exposeStep [] ⟨[], []⟩
        (some { kind := some "call", id := some "x", name := some "g" }) =
      (⟨[], []⟩,
       [OutFrame.result (some "x") none (some ("no handler: " ++
          jsKeyOfName (some "g")))],
       none) :=
  ⟨rfl, rfl,
    c5_no_handler [] ⟨[], []⟩
      { kind := some "call", id := some "x", name := some "g" } rfl rfl⟩

/-- Claim C6 counterexample: in the wrap.ts engine, close() only detaches
the listener and clears the replies map; a later call does not fail fast:
it registers a pending entry, posts a CallFrame and performs no immediate
settlement, and the matching result frame is then ignored because the
listener is detached, so the promise hangs forever instead of rejecting
with an "already disposed" error. -/
theorem c6_counterexample :
    (wrapCall (wrapClose ⟨true, []⟩) "id0" "f" [] .noSignal).posted =
      [.call "id0" "f" []] ∧
    (wrapCall (wrapClose ⟨true, []⟩) "id0" "f" [] .noSignal).settles = [] ∧
    (wrapCall (wrapClose ⟨true, []⟩) "id0" "f" [] .noSignal).state =
      ⟨false, ["id0"]⟩ ∧
    (wrapOnMessage ⟨false, ["id0"]⟩
        (some { kind := some "result", id := some "id0",
                result := some (JSVal.num 1) })).1 = ⟨false, ["id0"]⟩ ∧
    (wrapOnMessage ⟨false, ["id0"]⟩
        (some { kind := some "result", id := some "id0",
                result := some (JSVal.num 1) })).2 = [] :=
  ⟨rfl, rfl, rfl, rfl, rfl⟩

/-- Claim C6 (amended): the part_019 caller variant fails fast after
disposal, every call through it throwing the synchronous error
"API has been disposed" before posting anything; the wrap.ts engine has no
disposed check: after close() a call still posts a CallFrame and settles
nothing, and all subsequent endpoint messages are ignored, so that call
silently hangs. -/
theorem c6_disposed_behavior (vst : VariantState) (st : WrapState)
    (id nm : String) (args : List JSVal) (hasThen : Bool) (sig : SignalArg)
    (id2 nm2 : String) (args2 : List JSVal) :
    variantCall (variantDispose vst) id nm args hasThen sig =
      .error "API has been disposed" ∧
    (wrapCall (wrapClose st) id2 nm2 args2 .noSignal).posted =
      [.call id2 nm2 args2] ∧
    (wrapCall (wrapClose st) id2 nm2 args2 .noSignal).settles = [] ∧
    (∀ data,
      wrapOnMessage (wrapCall (wrapClose st) id2 nm2 args2 .noSignal).state
          data =
        ((wrapCall (wrapClose st) id2 nm2 args2 .noSignal).state, [])) :=
  ⟨rfl, rfl, rfl, fun _ => rfl⟩

/-- Claim C7: in both waitForReady variants, racing the ready frame against
the timeout timer (or the abort signal) produces exactly one settlement in
either order; on the readiness-first path the timer is cleared (or the
abort listener removed) and the subscription detached before the resolve,
and on the timeout-first or abort-first path the subscription is detached
and the promise rejected with the descriptive error; an already-aborted
signal rejects immediately and every later event settles nothing. -/
theorem c7_exactly_one_outcome (tm : Nat) (m : RawMsg)
    (hk : m.kind = some "ready") :
    (readyTimeoutRun tm ⟨true, true⟩ [.msgArrive (some m), .timerFire]).2 =
      [.clearTimer, .detach, .resolve] ∧
    (readyTimeoutRun tm ⟨true, true⟩ [.timerFire, .msgArrive (some m)]).2 =
      [.detach,
       .reject ("Endpoint readiness timeout after " ++ toString tm ++ "ms")] ∧
    (readyTimeoutRun tm ⟨true, true⟩
        [.msgArrive (some m), .timerFire]).2.countP RAction.isSettle = 1 ∧
    (readyTimeoutRun tm ⟨true, true⟩
        [.timerFire, .msgArrive (some m)]).2.countP RAction.isSettle = 1 ∧
    (readySignalRun (readySignalInit (.signal false)).1
        [.msgArrive (some m), .abortFire]).2 =
      [.removeAbort, .detach, .resolve] ∧
    (readySignalRun (readySignalInit (.signal false)).1
        [.abortFire, .msgArrive (some m)]).2 = [.detach, .reject "aborted"] ∧
    (readySignalInit (.signal true)).2 = [.reject "aborted"] ∧
    (∀ ev, (readySignalStep (readySignalInit (.signal true)).1 ev).2 = []) := by
  refine ⟨?_, ?_, ?_, ?_, ?_, ?_, rfl, ?_⟩
  · simp [readyTimeoutRun, readyTimeoutStep, readyTimeoutOnMsg,
      readyTimeoutOnTimer, hk]
  · simp [readyTimeoutRun, readyTimeoutStep, readyTimeoutOnMsg,
      readyTimeoutOnTimer, hk]
  · simp [readyTimeoutRun, readyTimeoutStep, readyTimeoutOnMsg,
      readyTimeoutOnTimer, hk, List.countP, List.countP.go, RAction.isSettle]
  · simp [readyTimeoutRun, readyTimeoutStep, readyTimeoutOnMsg,
      readyTimeoutOnTimer, hk, List.countP, List.countP.go, RAction.isSettle]
  · simp [readySignalRun, readySignalStep, readySignalOnMsg,
      readySignalOnAbort, readySignalInit, hk]
  · simp [readySignalRun, readySignalStep, readySignalOnMsg,
      readySignalOnAbort, readySignalInit, hk]
  · intro ev
    cases ev <;> rfl

/-- Claim C7 witness. -/
theorem c7_exactly_one_outcome_witness :
    (({ kind := some "ready" } : RawMsg).kind = some "ready") ∧
    ((readyTimeoutRun 5000 ⟨true, true⟩
        [.msgArrive (some { kind := some "ready" }), .timerFire]).2 =
      [.clearTimer, .detach, .resolve] ∧
    (readyTimeoutRun 5000 ⟨true, true⟩
        [.timerFire, .msgArrive (some { kind := some "ready" })]).2 =
      [.detach,
       .reject ("Endpoint readiness timeout after " ++ toString 5000 ++ "ms")] ∧
    (readyTimeoutRun 5000 ⟨true, true⟩
        [.msgArrive (some { kind := some "ready" }), .timerFire]).2.countP
        RAction.isSettle = 1 ∧
    (readyTimeoutRun 5000 ⟨true, true⟩
        [.timerFire, .msgArrive (some { kind := some "ready" })]).2.countP
        RAction.isSettle = 1 ∧
    (readySignalRun (readySignalInit (.signal false)).1
        [.msgArrive (some { kind := some "ready" }), .abortFire]).2 =
      [.removeAbort, .detach, .resolve] ∧
    (readySignalRun (readySignalInit (.signal false)).1
        [.abortFire, .msgArrive (some { kind := some "ready" })]).2 =
      [.detach, .reject "aborted"] ∧
    (readySignalInit (.signal true)).2 = [.reject "aborted"] ∧
    (∀ ev, (readySignalStep (readySignalInit (.signal true)).1 ev).2 = [])) :=
  ⟨rfl, c7_exactly_one_outcome 5000 { kind := some "ready" } rfl⟩

/-- Claim C8 counterexample: two malformed (missing-field) frames are not
silently ignored.  A call frame with no name field is answered with
ResultFrame error "no handler: undefined" (the exposer posts, rather than
ignores).  A call frame with no id field whose name has a handler mutates
the in-flight invocation map, adding a controller entry keyed by the
missing id, and starts the handler. -/
theorem c8_counterexample :
    (exposeStep [] ⟨[], []⟩
        (some { kind := some "call", id := some "x" })).2.1 =
      [.result (some "x") none (some "no handler: undefined")] ∧
    (exposeStep ["f"] ⟨[], []⟩
        (some { kind := some "call", name := some "f" })).1 =
      ⟨[(none, 0)], [false]⟩ ∧
    (exposeStep ["f"] ⟨[], []⟩
        (some { kind := some "call", name := some "f" })).2.2 =
      some ⟨none, 0, "f", []⟩ :=
  ⟨rfl, rfl, rfl⟩

/-- Claim C8 (amended): a null or undefined payload and a frame of
unrecognized kind are silently ignored by the exposer listener and by both
caller listeners, leaving every map unchanged, posting nothing, starting
nothing and throwing nothing; a result frame whose id has no pending entry
is likewise ignored by both caller listeners.  Call frames with missing
fields, however, are processed, not ignored (see the counterexample). -/
theorem c8_malformed_ignored (hnd : List String) (est : ExposeState)
    (st : WrapState) (vst : VariantState) (m : RawMsg)
    (h1 : m.kind ≠ some "call") (h2 : m.kind ≠ some "cancel")
    (h3 : m.kind ≠ some "result")
    (m2 : RawMsg) (i : String) (h4 : m2.kind = some "result")
    (h5 : m2.id = some i) (h6 : st.replies.contains i = false)
    (h7 : vst.pendingCalls.contains i = false) :
    exposeStep hnd est none = (est, [], none) ∧
    wrapOnMessage st none = (st, []) ∧
    variantOnMessage vst none = (vst, []) ∧
    exposeStep hnd est (some m) = (est, [], none) ∧
    wrapOnMessage st (some m) = (st, []) ∧
    variantOnMessage vst (some m) = (vst, []) ∧
    wrapOnMessage st (some m2) = (st, []) ∧
    variantOnMessage vst (some m2) = (vst, []) := by
  have h6m : i ∉ st.replies := by simpa using h6
  have h7m : i ∉ vst.pendingCalls := by simpa using h7
  refine ⟨rfl, ?_, ?_, ?_, ?_, ?_, ?_, ?_⟩
  · cases hb : st.listenerAttached <;> simp [wrapOnMessage, hb]
  · cases hb : vst.listenerAttached <;> simp [variantOnMessage, hb]
  · simp [exposeStep, h1, h2]
  · cases hb : st.listenerAttached <;> simp [wrapOnMessage, hb, h3]
  · cases hb : vst.listenerAttached <;> simp [variantOnMessage, hb, h3]
  · cases hb : st.listenerAttached <;>
      simp [wrapOnMessage, hb, h4, h5, h6m]
  · cases hb : vst.listenerAttached <;>
      simp [variantOnMessage, hb, h4, h5, h7m]

/-- Claim C8 witness. -/
theorem c8_malformed_ignored_witness :
    (({ kind := some "bogus" } : RawMsg).kind ≠ some "call") ∧
    (({ kind := some "bogus" } : RawMsg).kind ≠ some "cancel") ∧
    (({ kind := some "bogus" } : RawMsg).kind ≠ some "result") ∧
    (({ kind := some "result", id := some "z" } : RawMsg).kind =
      some "result") ∧
    (({ kind := some "result", id := some "z" } : RawMsg).id = some "z") ∧
    (List.contains ([] : List String) "z" = false) ∧
    (exposeStep [] ⟨[], []⟩ none = (⟨[], []⟩, [], none) ∧
      wrapOnMessage ⟨true, []⟩ none = (⟨true, []⟩, []) ∧
      variantOnMessage ⟨false, true, []⟩ none = (⟨false, true, []⟩, []) ∧
      exposeStep [] ⟨[], []⟩ (some { kind := some "bogus" }) =
        (⟨[], []⟩, [], none) ∧
      wrapOnMessage ⟨true, []⟩ (some { kind := some "bogus" }) =
        (⟨true, []⟩, []) ∧
      variantOnMessage ⟨false, true, []⟩ (some { kind := some "bogus" }) =
        (⟨false, true, []⟩, []) ∧
      wrapOnMessage ⟨true, []⟩
          (some { kind := some "result", id := some "z" }) =
        (⟨true, []⟩, []) ∧
      variantOnMessage ⟨false, true, []⟩
          (some { kind := some "result", id := some "z" }) =
        (⟨false, true, []⟩, [])) :=
  ⟨by decide, by decide, by decide, rfl, rfl, rfl,
    c8_malformed_ignored [] ⟨[], []⟩ ⟨true, []⟩ ⟨false, true, []⟩
      { kind := some "bogus" } (by decide) (by decide) (by decide)
      { kind := some "result", id := some "z" } "z" rfl rfl rfl rfl⟩

/-- Hex digits of a number below 16 form one character. -/
theorem natToHexDigits_eq_single (b : Nat) (h : b < 16) :
    natToHexDigits b = [Nat.digitChar b] := by
  unfold natToHexDigits
  simp [h]

/-- Hex digits of a byte in [16, 256) form two characters. -/
theorem natToHexDigits_eq_pair (b : Nat) (h1 : 16 ≤ b) (h2 : b < 256) :
    natToHexDigits b = [Nat.digitChar (b / 16), Nat.digitChar (b % 16)] := by
  have hn : ¬b < 16 := by omega
  have hd : b / 16 < 16 := by omega
  unfold natToHexDigits
  simp [hn, natToHexDigits_eq_single _ hd]

/-- The padded hex encoding of a byte is always two characters. -/
theorem jsByteHex_length (b : Nat) (hb : b < 256) :
    (jsByteHex b).length = 2 := by
  unfold jsByteHex
  by_cases h : b < 16
  · rw [natToHexDigits_eq_single b h]
    rfl
  · rw [natToHexDigits_eq_pair b (by omega) hb]
    rfl

/-- Length of a fold of string concatenations. -/
theorem foldl_append_length (l : List String) (acc : String) :
    (l.foldl (fun r s => r ++ s) acc).length =
      acc.length + (l.map String.length).sum := by
  induction l generalizing acc with
  | nil => simp
  | cons x xs ih =>
      simp only [List.foldl_cons, ih, List.map_cons, List.sum_cons,
        String.length_append]
      omega

/-- Length of String.join. -/
theorem join_length (l : List String) :
    (String.join l).length = (l.map String.length).sum := by
  simpa [String.join] using foldl_append_length l ""

/-- Sum of the hex-chunk lengths over a list of bytes. -/
theorem hex_lengths_sum (l : List Nat) (h : ∀ b ∈ l, b < 256) :
    ((l.map jsByteHex).map String.length).sum = 2 * l.length := by
  induction l with
  | nil => simp
  | cons x xs ih =>
      have hx := jsByteHex_length x (h x (by simp))
      have hxs := ih fun b hb => h b (by simp [hb])
      simp only [List.map_cons, List.sum_cons, hx, hxs, List.length_cons]
      omega

/-- Claim C9 counterexample: the genId of src/gen_id.ts calls the secure
random source without a try/catch; when the source throws, the exception
propagates to the caller of genId instead of being converted into a
fallback string. -/
theorem c9_counterexample :
    genId_gen_id (.error (JSVal.errObj "crypto unavailable")) =
      .error (JSVal.errObj "crypto unavailable") :=
  rfl

/-- Claim C9 (amended): the utils.ts genId is total: on the primary path
it returns the 16-character hex encoding of the 8 random bytes, and when
the secure random source throws it returns the pseudo-random fallback
string instead of propagating, so it always returns a string; the
gen_id.ts genId produces the same hex string on the primary path but
propagates a throwing random source (see the counterexample). -/
theorem c9_genid_total (bytes : List Nat) (fallback : String) (e : JSVal)
    (hlen : bytes.length = 8) (hbytes : ∀ b ∈ bytes, b < 256) :
    (genId_utils (.ok bytes) fallback).length = 16 ∧
    genId_utils (.error e) fallback = fallback ∧
    genId_gen_id (.ok bytes) = .ok (genId_utils (.ok bytes) fallback) := by
  refine ⟨?_, rfl, rfl⟩
  show (String.join (bytes.map jsByteHex)).length = 16
  rw [join_length, hex_lengths_sum bytes hbytes, hlen]

/-- Claim C9 witness. -/
theorem c9_genid_total_witness :
    (([0, 15, 16, 255, 1, 2, 3, 250] : List Nat).length = 8) ∧
    (∀ b ∈ ([0, 15, 16, 255, 1, 2, 3, 250] : List Nat), b < 256) ∧
    ((genId_utils (.ok [0, 15, 16, 255, 1, 2, 3, 250]) "zz").length = 16 ∧
      genId_utils (.error JSVal.null) "zz" = "zz" ∧
      genId_gen_id (.ok [0, 15, 16, 255, 1, 2, 3, 250]) =
        .ok (genId_utils (.ok [0, 15, 16, 255, 1, 2, 3, 250]) "zz")) :=
  ⟨rfl, by decide,
    c9_genid_total [0, 15, 16, 255, 1, 2, 3, 250] "zz" JSVal.null rfl
      (by decide)⟩

/-- Claim C10: the caller decides success against failure of a result
frame by the truthiness, not the presence, of its error field: with a
pending entry for the id, a present-but-empty error string resolves the
promise with the result value in both caller engines, any falsy error
field resolves, and only a nonempty error string rejects, with that string
as the message. -/
theorem c10_error_truthiness (st : WrapState) (vst : VariantState)
    (i : String) (res : Option JSVal) (err : Option String)
    (hW : st.listenerAttached = true) (hin : st.replies.contains i = true)
    (hV : vst.listenerAttached = true)
    (hvin : vst.pendingCalls.contains i = true) :
    (wrapOnMessage st (some { kind := some "result", id := some i,
                              error := some "", result := res })).2 =
      [(i, Settle.resolved res)] ∧
    (variantOnMessage vst (some { kind := some "result", id := some i,
                                  error := some "", result := res })).2 =
      [(i, Settle.resolved res)] ∧
    (optStrTruthy err = false →
      (wrapOnMessage st (some { kind := some "result", id := some i,
                                error := err, result := res })).2 =
        [(i, Settle.resolved res)]) ∧
    (∀ s : String, s ≠ "" →
      (wrapOnMessage st (some { kind := some "result", id := some i,
                                error := some s, result := res })).2 =
        [(i, Settle.rejected s)]) := by
  have hinm : i ∈ st.replies := by simpa using hin
  have hvinm : i ∈ vst.pendingCalls := by simpa using hvin
  refine ⟨?_, ?_, ?_, ?_⟩
  · simp [wrapOnMessage, hW, hinm, optStrTruthy]
  · simp [variantOnMessage, hV, hvinm, optStrTruthy]
  · intro h
    simp [wrapOnMessage, hW, hinm, h]
  · intro s hs
    simp [wrapOnMessage, hW, hinm, optStrTruthy, hs]

/-- Claim C10 witness. -/
theorem c10_error_truthiness_witness :
    ((⟨true, ["a"]⟩ : WrapState).listenerAttached = true) ∧
    (List.contains (["a"] : List String) "a" = true) ∧
    ((⟨false, true, ["a"]⟩ : VariantState).listenerAttached = true) ∧
    ((wrapOnMessage ⟨true, ["a"]⟩
        (some { kind := some "result", id := some "a", error := some "",
                result := some (JSVal.num 7) })).2 =
      [("a", Settle.resolved (some (JSVal.num 7)))] ∧
    (variantOnMessage ⟨false, true, ["a"]⟩
        (some { kind := some "result", id := some "a", error := some "",
                result := some (JSVal.num 7) })).2 =
      [("a", Settle.resolved (some (JSVal.num 7)))] ∧
    (optStrTruthy none = false →
      (wrapOnMessage ⟨true, ["a"]⟩
          (some { kind := some "result", id := some "a", error := none,
                  result := some (JSVal.num 7) })).2 =
        [("a", Settle.resolved (some (JSVal.num 7)))]) ∧
    (∀ s : String, s ≠ "" →
      (wrapOnMessage ⟨true, ["a"]⟩
          (some { kind := some "result", id := some "a", error := some s,
                  result := some (JSVal.num 7) })).2 =
        [("a", Settle.rejected s)])) :=
  ⟨rfl, rfl, rfl,
    c10_error_truthiness ⟨true, ["a"]⟩ ⟨false, true, ["a"]⟩ "a"
      (some (JSVal.num 7)) none rfl rfl rfl rfl⟩

end EndpointLink
